import Mathlib

/-!
Shallow embedding of the agtype value model and the operations of
`src/backend/utils/adt/agtype.c` (agensgraph-ext), together with proofs
checking the natural-language specification against the code.

Conventions:
* machine integers (`int64`) are modelled as `Int` (the operations proved
  about never overflow for the inputs the code admits);
* `float8` and `numeric` payloads are modelled as `ℚ`; the text produced
  for them by the host formatters (`float8out`, `numeric_out`) is passed
  in as a function parameter, since those formatters are external to the
  repository;
* functions that can `ereport(ERROR, ...)` return `Except AgError _`;
* a SQL-level nullable argument is an `Option _` (`none` = SQL NULL),
  which is distinct from the agtype null scalar `agtype_value.anull`.
-/

/-- Error taxonomy of the embedded code: each constructor corresponds to an
`ereport`/`elog` call site class in `agtype.c`. -/
inductive AgError where
  | stringTooLong
  | invalidParameter (msg : String)
  | contractViolation
deriving Repr

/-- The agtype value tree (`agtype_value` in the source).  Scalars carry
their payloads; `aarray` keeps the `raw_scalar` flag of the source struct;
`avertex`/`aedge` are objects distinguished by a tag, exactly as
`AGTV_VERTEX`/`AGTV_EDGE` retag an `AGTV_OBJECT`. -/
inductive agtype_value where
  | anull
  | abool (b : Bool)
  | aint (i : Int)
  | afloat (q : ℚ)
  | anumeric (q : ℚ)
  | astring (s : String)
  | aarray (raw_scalar : Bool) (elems : List agtype_value)
  | aobject (pairs : List (String × agtype_value))
  | avertex (pairs : List (String × agtype_value))
  | aedge (pairs : List (String × agtype_value))

/-- `IS_A_AGTYPE_SCALAR`: every `agtype_value` whose type tag is below
`AGTV_ARRAY`; in the source enum this includes vertices and edges. -/
def IS_A_AGTYPE_SCALAR : agtype_value → Bool
  | .aarray _ _ => false
  | .aobject _ => false
  | _ => true

/-- The `AGTV_*` enum tag of a value; distinct numeric subtypes have
distinct tags (the numbers follow the source enum order). -/
def agtv_tag : agtype_value → Nat
  | .anull => 0
  | .astring _ => 1
  | .anumeric _ => 2
  | .aint _ => 3
  | .afloat _ => 4
  | .abool _ => 5
  | .avertex _ => 6
  | .aedge _ => 7
  | .aarray _ _ => 16
  | .aobject _ => 17

/-- `AGT_ROOT_IS_OBJECT` on a decoded root container. -/
def AGT_ROOT_IS_OBJECT : agtype_value → Bool
  | .aobject _ => true
  | _ => false

/-- `get_ith_agtype_value_from_container` for an in-bounds index; the code
only calls this with `0 ≤ i < length` (out-of-bounds would yield NULL). -/
def get_ith (l : List agtype_value) (i : Int) : agtype_value :=
  l.getD i.toNat .anull

/-- `execute_array_access_operator` (agtype.c lines 1721-1751): the element
argument is the single scalar stored in the index agtype; an `AGTV_NULL`
index yields SQL null, a non-integer index is an error, a negative index is
shifted by the array length, and any index still outside `[0, size)` yields
SQL null. -/
def execute_array_access_operator (elems : List agtype_value)
    (element : agtype_value) : Except AgError (Option agtype_value) :=
  match element with
  | .anull => .ok none
  | .aint i0 =>
    let size : Int := (elems.length : Int)
    let index : Int := if i0 < 0 then size + i0 else i0
    if index ≥ size ∨ index < 0 then .ok none
    else
      match elems.get? index.toNat with
      | none => .ok none
      | some v => .ok (some v)
  | _ => .error (.invalidParameter ("array index must resolve to an integer value"))

/-- Specification-side description of indexed access, written from the
claim: a negative index `i` resolves to element `n + i`, and any index
outside `[0, n)` after this adjustment resolves to "not found". -/
def spec_array_index (elems : List agtype_value) (i : Int) :
    Option agtype_value :=
  let j := if i < 0 then (elems.length : Int) + i else i
  if 0 ≤ j ∧ j < (elems.length : Int) then elems.get? j.toNat else none

/-- The element-collection loop of `agtype_access_slice`
(`for (i = lower_index; i < upper_index; i++) push(get_ith(i))`),
unrolled on the iteration count. -/
def slice_loop_go (l : List agtype_value) : Nat → Int → List agtype_value
  | 0, _ => []
  | k + 1, i => get_ith l i :: slice_loop_go l k (i + 1)

/-- The slice element loop: iterates `i` from `lower` while `i < upper`. -/
def slice_loop (l : List agtype_value) (lower upper : Int) :
    List agtype_value :=
  slice_loop_go l (upper - lower).toNat lower

/-- `agtype_access_slice` (agtype.c lines 1818-1916).  `arr` is the list
behind the (non-scalar array) first argument, `none` meaning SQL NULL;
`lo`/`hi` are the single scalars stored in the bound arguments, `none`
meaning SQL NULL. -/
def agtype_access_slice (arr : Option (List agtype_value))
    (lo hi : Option agtype_value) :
    Except AgError (Option (List agtype_value)) :=
  match arr with
  | none => .ok none
  | some l =>
    match lo, hi with
    | none, none => .error (.invalidParameter ("slice start and/or end is required"))
    | lo, hi =>
      let array_size : Int := (l.length : Int)
      let lidx_value : Option agtype_value :=
        match lo with
        | none => none
        | some .anull => none
        | some v => some v
      let uidx_value : Option agtype_value :=
        match hi with
        | none => none
        | some .anull => none
        | some v => some v
      match lidx_value, uidx_value with
      | none, none => .error (.invalidParameter ("slice start and/or end is required"))
      | lv, uv =>
        let lok : Bool := match lv with
          | none => true
          | some (.aint _) => true
          | some _ => false
        let uok : Bool := match uv with
          | none => true
          | some (.aint _) => true
          | some _ => false
        if lok && uok then
          let lower_index : Int := match lv with
            | some (.aint n) => n
            | _ => 0
          let upper_index : Int := match uv with
            | some (.aint n) => n
            | _ => array_size
          let lower_index := if lower_index < 0 then array_size + lower_index else lower_index
          let lower_index := if lower_index < 0 then 0 else lower_index
          let lower_index := if lower_index > array_size then array_size else lower_index
          let upper_index := if upper_index < 0 then array_size + upper_index else upper_index
          let upper_index := if upper_index < 0 then 0 else upper_index
          let upper_index := if upper_index > array_size then array_size else upper_index
          .ok (some (slice_loop l lower_index upper_index))
        else .error (.invalidParameter ("array slices must resolve to an integer value"))

/-- Specification-side clamping of one slice bound, written from the claim:
negative bounds are first shifted by `n`, then clamped into `[0, n]`. -/
def clamp_index (n : Nat) (x : Int) : Nat :=
  min (if x < 0 then ((n : Int) + x).toNat else x.toNat) n

/-- A fixed length-5 array used for the concrete slice facts of the claim. -/
def ex5 : List agtype_value :=
  [.aint 1, .aint 2, .aint 3, .aint 4, .aint 5]


/-- Modelled from the spec: `AGTENTRY_OFFLENMASK`, the maximum representable
entry length.  The constant lives in `utils/agtype.h`, which is not under
`src/`; the entry's offset/length field is 28 bits wide, so the maximum is
`0x0FFFFFFF` (the spec: "an entry's length/offset field must fit its fixed
bit-width"). -/
def AGTENTRY_OFFLENMASK : Nat := 0x0FFFFFFF

/-- `check_string_length` (agtype.c lines 161-175): fails with the
string-too-long error when the byte length exceeds `AGTENTRY_OFFLENMASK`,
otherwise returns the length unchanged. -/
def check_string_length (len : Nat) : Except AgError Nat :=
  if len > AGTENTRY_OFFLENMASK then .error .stringTooLong else .ok len

/-- The token types the scalar hook can receive from the lexer. -/
inductive agtype_token_type where
  | token_string
  | token_integer
  | token_float
  | token_numeric
  | token_true
  | token_false
  | token_null

/-- One arm of the annotation test in `agtype_in_scalar`:
`len == n && pg_strcasecmp(annotation, pat) == 0`, where `pg_strcasecmp`
is an ASCII-case-insensitive comparison. -/
def annotation_matches (a pat : String) : Bool :=
  (a.utf8ByteSize == pat.utf8ByteSize) &&
    (a.data.map Char.toLower == pat.data.map Char.toLower)

/-- The value-construction part of `agtype_in_scalar` (agtype.c lines
350-419): resolve a trailing typecast annotation (overriding the token
type, or failing on an unknown annotation), then build the scalar
`agtype_value` for the token.  The host numeric parsers `scanint8`,
`float8in_internal` and `numeric_in` are external to the repository and
are passed in as functions. -/
def agtype_in_scalar_value (scanint8 : String → Except AgError Int)
    (float8in : String → Except AgError ℚ)
    (numeric_in : String → Except AgError ℚ)
    (token : String) (tokentype : agtype_token_type) (ann : Option String) :
    Except AgError agtype_value :=
  let tt : Except AgError agtype_token_type :=
    match ann with
    | none => .ok tokentype
    | some a =>
      if annotation_matches a ("numeric") then .ok .token_numeric
      else if annotation_matches a ("integer") then .ok .token_integer
      else if annotation_matches a ("float") then .ok .token_float
      else .error (.invalidParameter ("invalid annotation value for scalar"))
  match tt with
  | .error e => .error e
  | .ok .token_string =>
    (check_string_length token.utf8ByteSize).map (fun _ => .astring token)
  | .ok .token_integer => (scanint8 token).map .aint
  | .ok .token_float => (float8in token).map .afloat
  | .ok .token_numeric => (numeric_in token).map .anumeric
  | .ok .token_true => .ok (.abool true)
  | .ok .token_false => .ok (.abool false)
  | .ok .token_null => .ok .anull

/-- `string_to_agtype_value` (agtype.c lines 1263-1272): builds a string
scalar, validating the length at construction. -/
def string_to_agtype_value (s : String) : Except AgError agtype_value :=
  (check_string_length s.utf8ByteSize).map (fun _ => .astring s)

/-- The key construction of `agtype_in_object_field_start` (agtype.c lines
209-221): an object key is a string scalar whose length is validated at
construction. -/
def agtype_in_object_field_start (fname : String) :
    Except AgError agtype_value :=
  (check_string_length fname.utf8ByteSize).map (fun _ => .astring fname)

/-- `is_decimal_needed` (agtype.c lines 328-345): true exactly when every
character after an optional leading minus sign is a decimal digit. -/
def is_decimal_needed (numstr : String) : Bool :=
  let cs :=
    match numstr.data with
    | '-' :: rest => rest
    | cs => cs
  cs.all (fun c => decide ('0' ≤ c ∧ c ≤ '9'))

/-- Specification-side phrasing of the decimal test, written from the
claim: the formatter output "consists only of decimal digits (after an
optional leading minus sign)". -/
def all_digits_after_optional_minus (s : String) : Bool :=
  let cs := if s.data.head? = some ('-') then s.data.tail else s.data
  cs.all (fun c => decide ('0' ≤ c ∧ c ≤ '9'))

/-- One hexadecimal digit, lowercase, as produced by `%04x`. -/
def hexDigitChar (n : Nat) : Char :=
  if n < 10 then Char.ofNat (48 + n) else Char.ofNat (87 + n)

/-- Four lowercase hexadecimal digits, as produced by `%04x`. -/
def hex4 (n : Nat) : String :=
  String.mk [hexDigitChar (n / 4096 % 16), hexDigitChar (n / 256 % 16),
    hexDigitChar (n / 16 % 16), hexDigitChar (n % 16)]

/-- The per-character escaping of `escape_agtype` (agtype.c lines 287-326). -/
def escape_char (c : Char) : String :=
  if c = ('\x08') then ("\\b")
  else if c = ('\x0C') then ("\\f")
  else if c = ('\n') then ("\\n")
  else if c = ('\r') then ("\\r")
  else if c = ('\t') then ("\\t")
  else if c = ('"') then ("\\\"")
  else if c = ('\\') then ("\\\\")
  else if c.toNat < 32 then ("\\u") ++ hex4 c.toNat
  else String.mk [c]

/-- `escape_agtype`: a double-quoted, escaped string literal. -/
def escape_agtype (s : String) : String :=
  ("\"") ++ String.join (s.data.map escape_char) ++ ("\"")

mutual
/-- The text renderer: `agtype_to_cstring_worker` with `indent = false`
merged with `agtype_put_escaped_value` (agtype.c lines 223-282, 485-609),
expressed structurally on the value tree the iterator walks.  `fmtF` and
`fmtN` stand for the external formatters `float8out` and `numeric_out`.
A raw-scalar array renders as its bare element; a vertex or edge is
retagged as an object, rendered through the same worker, and suffixed. -/
def agtype_to_cstring (fmtF fmtN : ℚ → String) : agtype_value → String
  | .anull => ("null")
  | .astring s => escape_agtype s
  | .anumeric q => fmtN q ++ ("::numeric")
  | .aint i => toString i
  | .afloat q => fmtF q ++ (if is_decimal_needed (fmtF q) then (".0") else (""))
  | .abool b => if b then ("true") else ("false")
  | .aarray true es => String.intercalate (", ") (render_elems fmtF fmtN es)
  | .aarray false es =>
    ("[") ++ String.intercalate (", ") (render_elems fmtF fmtN es) ++ ("]")
  | .aobject ps =>
    ("\x7b") ++ String.intercalate (", ") (render_pairs fmtF fmtN ps) ++ ("\x7d")
  | .avertex ps =>
    ("\x7b") ++ String.intercalate (", ") (render_pairs fmtF fmtN ps) ++ ("\x7d") ++
      ("::vertex")
  | .aedge ps =>
    ("\x7b") ++ String.intercalate (", ") (render_pairs fmtF fmtN ps) ++ ("\x7d") ++
      ("::edge")

/-- Renders the elements of an array (`WAGT_ELEM` tokens), in order. -/
def render_elems (fmtF fmtN : ℚ → String) : List agtype_value → List String
  | [] => []
  | v :: vs => agtype_to_cstring fmtF fmtN v :: render_elems fmtF fmtN vs

/-- Renders the pairs of an object (`WAGT_KEY` then value), in order. -/
def render_pairs (fmtF fmtN : ℚ → String) :
    List (String × agtype_value) → List String
  | [] => []
  | (k, v) :: ps =>
    (escape_agtype k ++ (": ") ++ agtype_to_cstring fmtF fmtN v) ::
      render_pairs fmtF fmtN ps
end


/-- A parse-state frame: an in-progress Object (its pairs so far plus an
optional pending key) or an in-progress Array (its `raw_scalar` flag and
elements so far). -/
inductive Frame where
  | objFrame (pairs : List (String × agtype_value)) (pending : Option String)
  | arrFrame (raw : Bool) (elems : List agtype_value)

/-- The events accepted by `push_agtype_value` (`WAGT_*`). -/
inductive PushEvent where
  | beginObject
  | beginArray (raw : Bool)
  | endObject
  | endArray
  | key (k : String)
  | value (v : agtype_value)
  | elem (v : agtype_value)

/-- Modelled from the spec: appending a completed container into the parent
frame "exactly as Elem/Value would" (§4.1); part of `push_agtype_value`,
whose source lives in `agtype_util.c`, not under `src/`.  An empty stack
returns the completed container as the final result. -/
def append_to_parent (st : List Frame) (c : agtype_value) :
    Except AgError (List Frame × Option agtype_value) :=
  match st with
  | [] => .ok ([], some c)
  | .objFrame ps (some k) :: rest =>
    .ok (.objFrame (ps ++ [(k, c)]) none :: rest, some c)
  | .arrFrame raw es :: rest =>
    .ok (.arrFrame raw (es ++ [c]) :: rest, some c)
  | .objFrame _ none :: _ => .error .contractViolation

/-- Modelled from the spec: `push_agtype_value`, the Parse State Stack of
§4.1 (its source lives in `agtype_util.c`, not under `src/`).
Begin events push a fresh frame; `key` records a pending key; `value`/
`elem` append into the current object/array frame; End events pop the
frame, wrap it as a completed container and append it into the parent;
a `key` outside an object frame or an `elem` outside an array frame is a
fatal contract violation.  The returned option is the most recently
completed node (for End events), so callers can re-tag a just-closed
object as a vertex or edge. -/
def push_agtype_value (st : List Frame) (ev : PushEvent) :
    Except AgError (List Frame × Option agtype_value) :=
  match ev with
  | .beginObject => .ok (.objFrame [] none :: st, none)
  | .beginArray raw => .ok (.arrFrame raw [] :: st, none)
  | .key k =>
    match st with
    | .objFrame ps none :: rest => .ok (.objFrame ps (some k) :: rest, none)
    | _ => .error .contractViolation
  | .value v =>
    match st with
    | .objFrame ps (some k) :: rest =>
      .ok (.objFrame (ps ++ [(k, v)]) none :: rest, some v)
    | _ => .error .contractViolation
  | .elem v =>
    match st with
    | .arrFrame raw es :: rest =>
      .ok (.arrFrame raw (es ++ [v]) :: rest, some v)
    | _ => .error .contractViolation
  | .endObject =>
    match st with
    | .objFrame ps none :: rest => append_to_parent rest (.aobject ps)
    | _ => .error .contractViolation
  | .endArray =>
    match st with
    | .arrFrame raw es :: rest => append_to_parent rest (.aarray raw es)
    | _ => .error .contractViolation

/-- The full scalar hook `agtype_in_scalar` (agtype.c lines 350-453):
build the scalar value, then either wrap a top-level single scalar in a
one-element raw-scalar array (lines 421-435) or append it into the
current array/object frame (lines 436-453). -/
def agtype_in_scalar (scanint8 : String → Except AgError Int)
    (float8in : String → Except AgError ℚ)
    (numeric_in : String → Except AgError ℚ)
    (st : List Frame) (token : String) (tokentype : agtype_token_type)
    (ann : Option String) :
    Except AgError (List Frame × Option agtype_value) := do
  let v ← agtype_in_scalar_value scanint8 float8in numeric_in token tokentype ann
  match st with
  | [] => do
    let (st1, _) ← push_agtype_value [] (.beginArray true)
    let (st2, _) ← push_agtype_value st1 (.elem v)
    push_agtype_value st2 .endArray
  | .arrFrame r es :: rest => push_agtype_value (.arrFrame r es :: rest) (.elem v)
  | .objFrame ps pk :: rest => push_agtype_value (.objFrame ps pk :: rest) (.value v)

/-- `_agtype_build_vertex` (agtype.c lines 1274-1344): builds the object
(id, label, properties), checking each argument for SQL NULL in order; a
NULL properties argument becomes an empty object, a non-object properties
root is an error; the closed object is re-tagged `AGTV_VERTEX`. -/
def _agtype_build_vertex (id : Option Int) (label : Option String)
    (properties : Option agtype_value) : Except AgError agtype_value := do
  let (st, _) ← push_agtype_value [] .beginObject
  let _ ← string_to_agtype_value ("id")
  let (st, _) ← push_agtype_value st (.key ("id"))
  let gid ← match id with
    | none =>
      Except.error (AgError.invalidParameter
        ("agtype_build_vertex() graphid cannot be NULL"))
    | some g => Except.ok g
  let (st, _) ← push_agtype_value st (.value (.aint gid))
  let _ ← string_to_agtype_value ("label")
  let (st, _) ← push_agtype_value st (.key ("label"))
  let lab ← match label with
    | none =>
      Except.error (AgError.invalidParameter
        ("agtype_build_vertex() label cannot be NULL"))
    | some s => Except.ok s
  let labv ← string_to_agtype_value lab
  let (st, _) ← push_agtype_value st (.value labv)
  let _ ← string_to_agtype_value ("properties")
  let (st, _) ← push_agtype_value st (.key ("properties"))
  let st ← match properties with
    | none => do
      let (st, _) ← push_agtype_value st .beginObject
      let (st, _) ← push_agtype_value st .endObject
      Except.ok st
    | some p =>
      if AGT_ROOT_IS_OBJECT p then do
        let (st, _) ← push_agtype_value st (.value p)
        Except.ok st
      else
        Except.error (AgError.invalidParameter
          ("agtype_build_vertex() properties argument must be an object"))
  let (_, res) ← push_agtype_value st .endObject
  match res with
  | some (.aobject pairs) => Except.ok (.avertex pairs)
  | _ => Except.error AgError.contractViolation

/-- `_agtype_build_edge` (agtype.c lines 1346-1440): like the vertex
builder but with id, start_id, end_id, label, properties; the closed
object is re-tagged `AGTV_EDGE`.  (The source reuses the
"agtype_build_vertex()" prefix in its error messages.) -/
def _agtype_build_edge (id start_id end_id : Option Int)
    (label : Option String) (properties : Option agtype_value) :
    Except AgError agtype_value := do
  let (st, _) ← push_agtype_value [] .beginObject
  let _ ← string_to_agtype_value ("id")
  let (st, _) ← push_agtype_value st (.key ("id"))
  let gid ← match id with
    | none =>
      Except.error (AgError.invalidParameter
        ("agtype_build_vertex() graphid cannot be NULL"))
    | some g => Except.ok g
  let (st, _) ← push_agtype_value st (.value (.aint gid))
  let _ ← string_to_agtype_value ("start_id")
  let (st, _) ← push_agtype_value st (.key ("start_id"))
  let sid ← match start_id with
    | none =>
      Except.error (AgError.invalidParameter
        ("agtype_build_vertex() startid cannot be NULL"))
    | some g => Except.ok g
  let (st, _) ← push_agtype_value st (.value (.aint sid))
  let _ ← string_to_agtype_value ("end_id")
  let (st, _) ← push_agtype_value st (.key ("end_id"))
  let eid ← match end_id with
    | none =>
      Except.error (AgError.invalidParameter
        ("agtype_build_vertex() endoid cannot be NULL"))
    | some g => Except.ok g
  let (st, _) ← push_agtype_value st (.value (.aint eid))
  let _ ← string_to_agtype_value ("label")
  let (st, _) ← push_agtype_value st (.key ("label"))
  let lab ← match label with
    | none =>
      Except.error (AgError.invalidParameter
        ("agtype_build_vertex() label cannot be NULL"))
    | some s => Except.ok s
  let labv ← string_to_agtype_value lab
  let (st, _) ← push_agtype_value st (.value labv)
  let _ ← string_to_agtype_value ("properties")
  let (st, _) ← push_agtype_value st (.key ("properties"))
  let st ← match properties with
    | none => do
      let (st, _) ← push_agtype_value st .beginObject
      let (st, _) ← push_agtype_value st .endObject
      Except.ok st
    | some p =>
      if AGT_ROOT_IS_OBJECT p then do
        let (st, _) ← push_agtype_value st (.value p)
        Except.ok st
      else
        Except.error (AgError.invalidParameter
          ("agtype_build_vertex() properties argument must be an object"))
  let (_, res) ← push_agtype_value st .endObject
  match res with
  | some (.aobject pairs) => Except.ok (.aedge pairs)
  | _ => Except.error AgError.contractViolation

/-- Three-way comparison of naturals. -/
def cmpN (a b : Nat) : Int := if a < b then -1 else if b < a then 1 else 0

/-- Three-way comparison of rationals. -/
def cmpQ (a b : ℚ) : Int := if a < b then -1 else if b < a then 1 else 0

/-- Three-way comparison of booleans, false before true. -/
def cmpBool : Bool → Bool → Int
  | false, true => -1
  | true, false => 1
  | _, _ => 0

/-- Byte-wise lexicographic comparison of strings (UTF-8 byte order
coincides with code-point order, modelled on the character lists). -/
def cmpCharList : List Char → List Char → Int
  | [], [] => 0
  | [], _ :: _ => -1
  | _ :: _, [] => 1
  | a :: as, b :: bs =>
    if a < b then -1 else if b < a then 1 else cmpCharList as bs

/-- String comparison via `cmpCharList`. -/
def cmpString (a b : String) : Int := cmpCharList a.data b.data

/-- Lexicographic comparison of string lists (sorted key lists). -/
def cmpStringList : List String → List String → Int
  | [], [] => 0
  | [], _ :: _ => -1
  | _ :: _, [] => 1
  | a :: as, b :: bs =>
    if cmpString a b = 0 then cmpStringList as bs else cmpString a b

/-- Insertion into a key-sorted pair list. -/
def insertPair (p : String × agtype_value) :
    List (String × agtype_value) → List (String × agtype_value)
  | [] => [p]
  | q :: qs =>
    if cmpString p.1 q.1 ≤ 0 then p :: q :: qs else q :: insertPair p qs

/-- Sorting an object's pairs by key (insertion sort). -/
def sortPairs : List (String × agtype_value) → List (String × agtype_value)
  | [] => []
  | p :: ps => insertPair p (sortPairs ps)

/-- The common arbitrary-precision numeric value of a Number scalar. -/
def numValue : agtype_value → ℚ
  | .aint i => (i : ℚ)
  | .afloat q => q
  | .anumeric q => q
  | _ => 0

/-- Modelled from the spec: the total-order type rank of §4.4
(Null < Bool < Number < String < Array < Object < Vertex < Edge); the
comparator source lives in `agtype_util.c`, not under `src/`. -/
def type_rank : agtype_value → Nat
  | .anull => 0
  | .abool _ => 1
  | .aint _ => 2
  | .afloat _ => 2
  | .anumeric _ => 2
  | .astring _ => 3
  | .aarray _ _ => 4
  | .aobject _ => 5
  | .avertex _ => 6
  | .aedge _ => 7

/-- Comparison of two objects given a comparator for values: by key count
first, then by key/value pairs in sorted-key order (§4.4). -/
def compare_object_pairs (cmp : agtype_value → agtype_value → Int)
    (ps qs : List (String × agtype_value)) : Int :=
  if ps.length ≠ qs.length then cmpN ps.length qs.length
  else
    let sp := sortPairs ps
    let sq := sortPairs qs
    let kc := cmpStringList (sp.map Prod.fst) (sq.map Prod.fst)
    if kc = 0 then
      cmp (.aarray false (sp.map Prod.snd)) (.aarray false (sq.map Prod.snd))
    else kc

/-- Modelled from the spec: the recursive total-order comparator of §4.4
(`compare_agtype_containers_orderability` and
`compare_agtype_scalar_values` live in `agtype_util.c`, not under `src/`):
rank order across types; Numbers by exact numeric value via a common
arbitrary-precision representation; strings byte-wise; arrays element-wise
then by length; objects by key count then sorted-key pairs.  Recursion is
bounded by an explicit depth counter, as §9 of the spec prescribes. -/
def compare_agtype_values : Nat → agtype_value → agtype_value → Int
  | 0, _, _ => 0
  | fuel + 1, a, b =>
    if type_rank a ≠ type_rank b then cmpN (type_rank a) (type_rank b)
    else
      match a, b with
      | .anull, .anull => 0
      | .abool x, .abool y => cmpBool x y
      | .astring x, .astring y => cmpString x y
      | .aarray _ [], .aarray _ [] => 0
      | .aarray _ [], .aarray _ (_ :: _) => -1
      | .aarray _ (_ :: _), .aarray _ [] => 1
      | .aarray r (x :: xs), .aarray t (y :: ys) =>
        let c := compare_agtype_values fuel x y
        if c = 0 then compare_agtype_values fuel (.aarray r xs) (.aarray t ys)
        else c
      | .aobject ps, .aobject qs =>
        compare_object_pairs (compare_agtype_values fuel) ps qs
      | .avertex ps, .avertex qs =>
        compare_object_pairs (compare_agtype_values fuel) ps qs
      | .aedge ps, .aedge qs =>
        compare_object_pairs (compare_agtype_values fuel) ps qs
      | x, y => cmpQ (numValue x) (numValue y)

mutual
/-- A structural size of a value, used as the comparator's depth bound. -/
def agt_size : agtype_value → Nat
  | .aarray _ es => agt_size_list es + 1
  | .aobject ps => agt_size_pairs ps + 1
  | .avertex ps => agt_size_pairs ps + 1
  | .aedge ps => agt_size_pairs ps + 1
  | _ => 1

/-- Structural size of an element list. -/
def agt_size_list : List agtype_value → Nat
  | [] => 0
  | v :: vs => agt_size v + agt_size_list vs + 1

/-- Structural size of a pair list. -/
def agt_size_pairs : List (String × agtype_value) → Nat
  | [] => 0
  | (_, v) :: ps => agt_size v + agt_size_pairs ps + 1
end

/-- Container comparison entry point (the depth bound is generous enough
for the arguments' actual depth). -/
def compare_agtype_containers_orderability (a b : agtype_value) : Int :=
  compare_agtype_values (agt_size a + agt_size b) a b

/-- Scalar comparison entry point; the IN operator only calls it on two
scalars of the same `AGTV_*` type. -/
def compare_agtype_scalar_values (a b : agtype_value) : Int :=
  compare_agtype_values (agt_size a + agt_size b) a b

/-- The per-element test of the IN loop (agtype.c lines 1979-1995): if
both sides are containers, compare containers for equality; if both are
scalars of the same `AGTV_*` type, compare the scalars; otherwise the
element does not match (no comparison is attempted). -/
def in_matches (item elem : agtype_value) : Bool :=
  if !(IS_A_AGTYPE_SCALAR item) && !(IS_A_AGTYPE_SCALAR elem) then
    compare_agtype_containers_orderability item elem == 0
  else if IS_A_AGTYPE_SCALAR item && IS_A_AGTYPE_SCALAR elem &&
      (agtv_tag item == agtv_tag elem) then
    compare_agtype_scalar_values item elem == 0
  else false

/-- `agtype_in_operator` (agtype.c lines 1918-1997): the array argument
must be a list (a raw-scalar array is SQL null for an agtype null scalar,
an error otherwise); a SQL-null or agtype-null item yields SQL null; the
loop scans the elements with `in_matches` and returns an agtype boolean. -/
def agtype_in_operator (arr item : Option agtype_value) :
    Except AgError (Option agtype_value) :=
  match arr with
  | none => .ok none
  | some a =>
    match a with
    | .aarray true elems =>
      match elems with
      | .anull :: _ => .ok none
      | _ => .error (.invalidParameter ("object of IN must be a list"))
    | .aarray false elems =>
      match item with
      | none => .ok none
      | some it =>
        let itv : agtype_value :=
          match it with
          | .aarray true (v :: _) => v
          | other => other
        match itv with
        | .anull => .ok none
        | itval => .ok (some (.abool (elems.any (fun e => in_matches itval e))))
    | _ => .error (.invalidParameter ("object of IN must be a list"))

/-- `find_agtype_value_from_container` with `AGT_FOBJECT`: linear scan of
the pairs in insertion order, first matching key wins. -/
def find_agtype_value_from_container
    (pairs : List (String × agtype_value)) (key : String) :
    Option agtype_value :=
  match pairs with
  | [] => none
  | (k, v) :: rest =>
    if k = key then some v else find_agtype_value_from_container rest key

/-- `execute_map_access_operator` (agtype.c lines 1673-1715): an
`AGTV_NULL` key yields SQL null; integer, float, numeric and boolean keys
are errors; a string key is looked up (missing key yields SQL null); any
other scalar hits the "unknown agtype scalar type" error. -/
def execute_map_access_operator (pairs : List (String × agtype_value))
    (key : agtype_value) : Except AgError (Option agtype_value) :=
  match key with
  | .anull => .ok none
  | .aint _ =>
    .error (.invalidParameter ("AGTV_INTEGER is not a valid key type"))
  | .afloat _ =>
    .error (.invalidParameter ("AGTV_FLOAT is not a valid key type"))
  | .anumeric _ =>
    .error (.invalidParameter ("AGTV_NUMERIC is not a valid key type"))
  | .abool _ =>
    .error (.invalidParameter ("AGTV_BOOL is not a valid key type"))
  | .astring s => .ok (find_agtype_value_from_container pairs s)
  | _ => .error (.invalidParameter ("unknown agtype scalar type"))


/-- True when an operation reported an error (`ereport(ERROR, ...)`). -/
def is_error (r : Except AgError (Option agtype_value)) : Bool :=
  match r with
  | .error _ => true
  | .ok _ => false


/-- The scalar type categories of `datum_to_agtype` together with the data
the code extracts from the datum for each: the boolean itself; the int64
behind an integer datum (its `int8out` text is its decimal rendering, and
`int8in` of that text gives the value back); the `float8out` text and the
native float8 payload; the `numeric_out` text and the value `numeric_in`
parses back from it; the `agtype_encode_date_time` text; or the output
function's text for the default category.  The container categories
(ARRAY, COMPOSITE, JSON, JSONB, AGTYPE, JSONCAST) recurse or replay
tokens instead of building a scalar and never reach the scalar-wrap code
with a scalar value, so they are outside this model. -/
inductive scalar_datum where
  | dnull
  | dbool (b : Bool)
  | dinteger (i : Int)
  | dfloat (outputstr : String) (f : ℚ)
  | dnumeric (outputstr : String) (q : ℚ)
  | ddatetime (s : String)
  | dother (outputstr : String)

/-- The `agtv` built by the conversion switch of `datum_to_agtype`
(agtype.c lines 810-1031) for the scalar categories: a NULL datum becomes
the agtype null; with `key_scalar` the value is forced to a string;
otherwise booleans, integers and floats keep their payloads, a numeric
whose output text contains an N or n (NaN/Infinity spellings) falls back
to a string, date/timestamp values are their formatted strings, and the
default category is a length-checked string. -/
def datum_to_agtype_scalar (d : scalar_datum) (key_scalar : Bool) :
    Except AgError agtype_value :=
  match d with
  | .dnull => .ok .anull
  | .dbool b =>
    if key_scalar then .ok (.astring (if b then ("true") else ("false")))
    else .ok (.abool b)
  | .dinteger i =>
    if key_scalar then .ok (.astring (toString i)) else .ok (.aint i)
  | .dfloat outputstr f =>
    if key_scalar then .ok (.astring outputstr) else .ok (.afloat f)
  | .dnumeric outputstr q =>
    if key_scalar then .ok (.astring outputstr)
    else if outputstr.data.contains ('N') || outputstr.data.contains ('n') then
      .ok (.astring outputstr)
    else .ok (.anumeric q)
  | .ddatetime s => .ok (.astring s)
  | .dother outputstr =>
    (check_string_length outputstr.utf8ByteSize).map (fun _ => .astring outputstr)

/-- `datum_to_agtype` (agtype.c lines 810-1075) for a scalar-category
datum: build `agtv`, then insert it (lines 1040-1074) — with an empty
parse state the scalar is wrapped in a one-element raw-scalar array
exactly as in `agtype_in_scalar`; otherwise it is appended to the current
array frame as an element or to the current object frame as a key or
value.  (The recursion early-return of lines 1034-1039 only fires for the
container categories, which are outside this model.) -/
def datum_to_agtype (d : scalar_datum) (key_scalar : Bool)
    (st : List Frame) :
    Except AgError (List Frame × Option agtype_value) := do
  let agtv ← datum_to_agtype_scalar d key_scalar
  match st with
  | [] => do
    let (st1, _) ← push_agtype_value [] (.beginArray true)
    let (st2, _) ← push_agtype_value st1 (.elem agtv)
    push_agtype_value st2 .endArray
  | .arrFrame r es :: rest =>
    push_agtype_value (.arrFrame r es :: rest) (.elem agtv)
  | .objFrame ps pk :: rest =>
    if key_scalar then
      match agtv with
      | .astring k => push_agtype_value (.objFrame ps pk :: rest) (.key k)
      | _ => .error .contractViolation
    else push_agtype_value (.objFrame ps pk :: rest) (.value agtv)

theorem slice_loop_go_eq (l : List agtype_value) :
    ∀ (k : Nat) (i : Int), 0 ≤ i → i.toNat + k ≤ l.length →
      slice_loop_go l k i = (l.take (i.toNat + k)).drop i.toNat := by
  intro k
  induction k with
  | zero =>
    intro i _ _
    have hlen : (l.take (i.toNat + 0)).length ≤ i.toNat := by
      simp [List.length_take]
    simp only [slice_loop_go]
    exact (List.drop_eq_nil_iff.mpr hlen).symm
  | succ k ih =>
    intro i hi hle
    have hi1 : (0 : Int) ≤ i + 1 := by omega
    have hto : (i + 1).toNat = i.toNat + 1 := by omega
    have hlt : i.toNat < l.length := by omega
    have hrec := ih (i + 1) hi1 (by omega)
    rw [hto] at hrec
    simp only [slice_loop_go, hrec]
    have harith : i.toNat + (k + 1) = i.toNat + 1 + k := by omega
    rw [harith]
    have hlt' : i.toNat < (l.take (i.toNat + 1 + k)).length := by
      simp [List.length_take]
      omega
    rw [List.drop_eq_getElem_cons hlt', List.getElem_take]
    have hhead : get_ith l i = l[i.toNat] := by
      unfold get_ith
      exact List.getD_eq_getElem l .anull hlt
    rw [hhead]

theorem slice_loop_eq_take_drop (l : List agtype_value) (lower upper : Int)
    (hl : 0 ≤ lower) (hu : upper ≤ (l.length : Int)) :
    slice_loop l lower upper = (l.take upper.toNat).drop lower.toNat := by
  unfold slice_loop
  by_cases hcmp : lower < upper
  · have h1 : lower.toNat + (upper - lower).toNat = upper.toNat := by omega
    have h2 : lower.toNat + (upper - lower).toNat ≤ l.length := by omega
    rw [slice_loop_go_eq l _ _ hl h2, h1]
  · have h0 : (upper - lower).toNat = 0 := by omega
    rw [h0]
    simp only [slice_loop_go]
    have hlen : (l.take upper.toNat).length ≤ lower.toNat := by
      simp [List.length_take]
      omega
    exact (List.drop_eq_nil_iff.mpr hlen).symm

/-- C1: for an agtype Array accessed with an Integer index `i`, a negative
`i` addresses from the end (it resolves to element `length + i`, so `-1` is
the last element), and any index outside `[0, length)` after this
adjustment yields SQL null ("not found"), never an error. -/
theorem C1_array_access_indexing (l : List agtype_value) (i : Int) :
    execute_array_access_operator l (.aint i) = .ok (spec_array_index l i)
    ∧ execute_array_access_operator l (.aint (-1)) = .ok l.getLast?
    ∧ execute_array_access_operator l (.aint (l.length : Int)) = .ok none
    ∧ execute_array_access_operator l (.aint (-(l.length : Int) - 1)) = .ok none := by
  have hmain : ∀ j : Int, execute_array_access_operator l (.aint j) =
      .ok (spec_array_index l j) := by
    intro j
    simp only [execute_array_access_operator, spec_array_index]
    by_cases hj : j < 0
    · simp only [if_pos hj]
      by_cases hr : (l.length : Int) + j ≥ (l.length : Int) ∨ (l.length : Int) + j < 0
      · rw [if_pos hr, if_neg (by omega)]
      · rw [if_neg hr, if_pos (by omega)]
        have hlt : ((l.length : Int) + j).toNat < l.length := by omega
        rw [List.get?_eq_get hlt]
    · simp only [if_neg hj]
      by_cases hr : j ≥ (l.length : Int) ∨ j < 0
      · rw [if_pos hr, if_neg (by omega)]
      · rw [if_neg hr, if_pos (by omega)]
        have hlt : j.toNat < l.length := by omega
        rw [List.get?_eq_get hlt]
  refine ⟨hmain i, ?_, ?_, ?_⟩
  · rw [hmain (-1)]
    simp only [spec_array_index]
    cases l with
    | nil => simp
    | cons a t =>
      simp only [if_pos (show (-1 : Int) < 0 by omega)]
      have hcond : (0 : Int) ≤ ((a :: t).length : Int) + (-1)
          ∧ ((a :: t).length : Int) + (-1) < ((a :: t).length : Int) := by
        simp only [List.length_cons]
        omega
      rw [if_pos hcond, List.getLast?_eq_getElem?]
      congr 1
      simp
  · rw [hmain (l.length : Int)]
    simp only [spec_array_index]
    rw [if_neg (show ¬ ((l.length : Int) < 0) by omega),
      if_neg (show ¬ ((0 : Int) ≤ (l.length : Int) ∧
        (l.length : Int) < (l.length : Int)) by omega)]
  · rw [hmain (-(l.length : Int) - 1)]
    simp only [spec_array_index]
    rw [if_pos (show -(l.length : Int) - 1 < 0 by omega),
      if_neg (show ¬ ((0 : Int) ≤ (l.length : Int) + (-(l.length : Int) - 1) ∧
        (l.length : Int) + (-(l.length : Int) - 1) < (l.length : Int)) by omega)]

/-- C2: slicing an agtype Array with Integer bounds `(lo, hi)` first shifts
negative bounds by the length, then clamps both into `[0, length]`, and
returns the elements at positions `lo .. hi-1`; in particular bounds
`(-100, 100)` on a length-5 array yield the whole array and `(3, 1)` yield
an empty array. -/
theorem C2_slice_clamping (l : List agtype_value) (lo hi : Int) :
    agtype_access_slice (some l) (some (.aint lo)) (some (.aint hi)) =
      .ok (some ((l.take (clamp_index l.length hi)).drop (clamp_index l.length lo)))
    ∧ agtype_access_slice (some ex5) (some (.aint (-100))) (some (.aint 100)) =
      .ok (some ex5)
    ∧ agtype_access_slice (some ex5) (some (.aint 3)) (some (.aint 1)) =
      .ok (some ([] : List agtype_value)) := by
  have hmain : ∀ (m : List agtype_value) (a b : Int),
      agtype_access_slice (some m) (some (.aint a)) (some (.aint b)) =
        .ok (some ((m.take (clamp_index m.length b)).drop (clamp_index m.length a))) := by
    intro m a b
    simp only [agtype_access_slice, Bool.and_self, if_true]
    set n : Int := (m.length : Int) with hn
    set la1 : Int := if a < 0 then n + a else a with hla1
    set la2 : Int := if la1 < 0 then 0 else la1 with hla2
    set la3 : Int := if la2 > n then n else la2 with hla3
    set lb1 : Int := if b < 0 then n + b else b with hlb1
    set lb2 : Int := if lb1 < 0 then 0 else lb1 with hlb2
    set lb3 : Int := if lb2 > n then n else lb2 with hlb3
    have h0a : 0 ≤ la3 := by
      simp only [hla3, hla2]
      split_ifs <;> omega
    have hub : lb3 ≤ n := by
      simp only [hlb3]
      split_ifs <;> omega
    have heq := slice_loop_eq_take_drop m la3 lb3 h0a hub
    rw [heq]
    have hca : la3.toNat = clamp_index m.length a := by
      simp only [hla3, hla2, hla1, clamp_index, hn, Nat.min_def]
      split_ifs <;> omega
    have hcb : lb3.toNat = clamp_index m.length b := by
      simp only [hlb3, hlb2, hlb1, clamp_index, hn, Nat.min_def]
      split_ifs <;> omega
    rw [hca, hcb]
  refine ⟨hmain l lo hi, ?_, ?_⟩
  · rw [hmain ex5 (-100) 100]
    have h1 : clamp_index ex5.length 100 = 5 := by simp [clamp_index, ex5]
    have h2 : clamp_index ex5.length (-100) = 0 := by simp [clamp_index, ex5]
    rw [h1, h2]
    simp [ex5]
  · rw [hmain ex5 3 1]
    have h1 : clamp_index ex5.length 1 = 1 := by simp [clamp_index, ex5]
    have h2 : clamp_index ex5.length 3 = 3 := by simp [clamp_index, ex5]
    rw [h1, h2]
    simp [ex5]

/-- C3: building an agtype String (parsed scalar token, object key, or
string constructor argument) fails with StringTooLong exactly when the byte
length exceeds `AGTENTRY_OFFLENMASK`; otherwise `check_string_length`
returns the length unchanged; and each construction path routes the raw
byte length through `check_string_length` before any encode step. -/
theorem C3_string_length_validation (len : Nat) (tok : String)
    (p1 : String → Except AgError Int) (p2 p3 : String → Except AgError ℚ) :
    (check_string_length len = .error .stringTooLong ↔ AGTENTRY_OFFLENMASK < len)
    ∧ (len ≤ AGTENTRY_OFFLENMASK → check_string_length len = .ok len)
    ∧ agtype_in_scalar_value p1 p2 p3 tok .token_string none =
        (check_string_length tok.utf8ByteSize).map (fun _ => .astring tok)
    ∧ string_to_agtype_value tok =
        (check_string_length tok.utf8ByteSize).map (fun _ => .astring tok)
    ∧ agtype_in_object_field_start tok =
        (check_string_length tok.utf8ByteSize).map (fun _ => .astring tok) := by
  refine ⟨?_, ?_, rfl, rfl, rfl⟩
  · unfold check_string_length
    by_cases h : len > AGTENTRY_OFFLENMASK
    · rw [if_pos h]
      exact iff_of_true rfl h
    · rw [if_neg h]
      exact iff_of_false (fun hx => Except.noConfusion hx) (by omega)
  · intro hle
    unfold check_string_length
    rw [if_neg (by omega)]

theorem C3_string_length_validation_witness :
    check_string_length 5 = .ok 5
    ∧ check_string_length (AGTENTRY_OFFLENMASK + 1) = .error .stringTooLong := by
  have h1 := C3_string_length_validation 5 ("ab")
    (fun _ => .ok 0) (fun _ => .ok 0) (fun _ => .ok 0)
  have h2 := C3_string_length_validation (AGTENTRY_OFFLENMASK + 1) ("ab")
    (fun _ => .ok 0) (fun _ => .ok 0) (fun _ => .ok 0)
  exact ⟨h1.2.1 (by decide), h2.1.mpr (by omega)⟩

/-- C5: a trailing typecast annotation spelled (case-insensitively)
numeric, integer, or float overrides the token's inferred lexical type —
the token is processed exactly as if it had been lexed with that type —
and any other annotation spelling makes the parse fail with the
"invalid annotation value for scalar" error, for every token type. -/
theorem C5_annotation_override (p1 : String → Except AgError Int)
    (p2 p3 : String → Except AgError ℚ) (token a : String)
    (tt : agtype_token_type) :
    agtype_in_scalar_value p1 p2 p3 token tt (some a) =
      (if annotation_matches a ("numeric")
       then agtype_in_scalar_value p1 p2 p3 token .token_numeric none
       else if annotation_matches a ("integer")
       then agtype_in_scalar_value p1 p2 p3 token .token_integer none
       else if annotation_matches a ("float")
       then agtype_in_scalar_value p1 p2 p3 token .token_float none
       else .error (.invalidParameter ("invalid annotation value for scalar"))) := by
  by_cases h1 : annotation_matches a ("numeric")
  · simp [agtype_in_scalar_value, h1]
  · by_cases h2 : annotation_matches a ("integer")
    · simp [agtype_in_scalar_value, h1, h2]
    · by_cases h3 : annotation_matches a ("float")
      · simp [agtype_in_scalar_value, h1, h2, h3]
      · simp [agtype_in_scalar_value, h1, h2, h3]

/-- C6: a Vertex (resp. Edge) renders as exactly the rendering of the same
pairs as a plain Object followed by the suffix ::vertex (resp. ::edge); in
particular the object body is character-for-character the rendering of the
untagged object. -/
theorem C6_vertex_edge_rendering (fmtF fmtN : ℚ → String)
    (ps : List (String × agtype_value)) :
    agtype_to_cstring fmtF fmtN (.avertex ps) =
      agtype_to_cstring fmtF fmtN (.aobject ps) ++ ("::vertex")
    ∧ agtype_to_cstring fmtF fmtN (.aedge ps) =
      agtype_to_cstring fmtF fmtN (.aobject ps) ++ ("::edge") := by
  constructor <;> simp [agtype_to_cstring]

theorem is_decimal_needed_eq_all_digits (s : String) :
    is_decimal_needed s = all_digits_after_optional_minus s := by
  unfold is_decimal_needed all_digits_after_optional_minus
  cases hd : s.data with
  | nil => simp
  | cons c rest =>
    by_cases hc : c = ('-')
    · subst hc
      simp
    · rw [if_neg (show ¬((c :: rest).head? = some ('-')) by simp [hc])]
      have hm : (match c :: rest with
          | '-' :: r => r
          | cs => cs) = c :: rest := by
        split
        · next r heq =>
            injection heq with h1 _
            exact absurd h1 hc
        · rfl
      simp only [hm]

/-- C7 (amended): rendering a Float appends the suffix .0 exactly when the
formatter's output consists only of decimal digits after an optional
leading minus sign; consequently the rendered text contains a decimal
point whenever the formatter output was all digits or already contained
one — formatter outputs in exponent or non-finite form (for example
1e+100) are passed through unchanged and need not contain a point. -/
theorem C7_float_decimal_point (fmtF fmtN : ℚ → String) (q : ℚ) :
    agtype_to_cstring fmtF fmtN (.afloat q) =
      fmtF q ++ (if all_digits_after_optional_minus (fmtF q) then (".0") else (""))
    ∧ is_decimal_needed (fmtF q) = all_digits_after_optional_minus (fmtF q)
    ∧ (all_digits_after_optional_minus (fmtF q) = true ∨ ('.') ∈ (fmtF q).data →
        ('.') ∈ (agtype_to_cstring fmtF fmtN (.afloat q)).data) := by
  have hb := is_decimal_needed_eq_all_digits (fmtF q)
  have hrend : agtype_to_cstring fmtF fmtN (.afloat q) =
      fmtF q ++ (if all_digits_after_optional_minus (fmtF q) then (".0") else ("")) := by
    simp only [agtype_to_cstring, hb]
  refine ⟨hrend, hb, ?_⟩
  intro hcase
  rw [hrend]
  by_cases hdig : all_digits_after_optional_minus (fmtF q) = true
  · rw [if_pos hdig, String.data_append]
    exact List.mem_append_right _ (by decide)
  · have hdot : ('.') ∈ (fmtF q).data := by
      rcases hcase with hcase | hcase
      · exact absurd hcase hdig
      · exact hcase
    rw [if_neg hdig, String.data_append]
    exact List.mem_append_left _ hdot

theorem C7_float_decimal_point_witness :
    ('.') ∈ (agtype_to_cstring (fun _ => ("2")) (fun _ => ("")) (.afloat 0)).data :=
  (C7_float_decimal_point (fun _ => ("2")) (fun _ => ("")) 0).2.2
    (Or.inl (by decide))

/-- C7 (counterexample): for the Float value 1e100 the host formatter
`float8out` produces the exponent-form text 1e+100, which is not an
all-digit string, so no .0 suffix is appended and the rendered float
literal contains no decimal point — refuting "every rendered float literal
contains a '.'". -/
theorem C7_counterexample :
    agtype_to_cstring (fun _ => ("1e+100")) (fun _ => ("")) (.afloat ((10 : ℚ) ^ 100)) =
      ("1e+100")
    ∧ ('.') ∉ ("1e+100").data := by
  constructor
  · have h : is_decimal_needed ("1e+100") = false := by decide
    simp [agtype_to_cstring, h]
  · decide

theorem map_ok_scalar {α : Type} (r : Except AgError α) (f : α → agtype_value)
    (v : agtype_value) (hf : ∀ x, IS_A_AGTYPE_SCALAR (f x) = true)
    (h : r.map f = .ok v) : IS_A_AGTYPE_SCALAR v = true := by
  cases r with
  | error e => simp [Except.map] at h
  | ok x =>
    simp [Except.map] at h
    rw [← h]
    exact hf x

theorem scalar_value_is_scalar (p1 : String → Except AgError Int)
    (p2 p3 : String → Except AgError ℚ) (token : String)
    (tt : agtype_token_type) (ann : Option String) (v : agtype_value)
    (h : agtype_in_scalar_value p1 p2 p3 token tt ann = .ok v) :
    IS_A_AGTYPE_SCALAR v = true := by
  simp only [agtype_in_scalar_value] at h
  rcases ann with _ | a
  · cases tt
    · exact map_ok_scalar _ (fun _ => agtype_value.astring token) _ (fun _ => rfl) h
    · exact map_ok_scalar _ agtype_value.aint _ (fun _ => rfl) h
    · exact map_ok_scalar _ agtype_value.afloat _ (fun _ => rfl) h
    · exact map_ok_scalar _ agtype_value.anumeric _ (fun _ => rfl) h
    · injection h with h2
      rw [← h2]
      rfl
    · injection h with h2
      rw [← h2]
      rfl
    · injection h with h2
      rw [← h2]
      rfl
  · by_cases h1 : annotation_matches a ("numeric") = true
    · simp only [h1, if_true] at h
      exact map_ok_scalar _ agtype_value.anumeric _ (fun _ => rfl) h
    · simp only [h1, if_false, Bool.false_eq_true] at h
      by_cases h2 : annotation_matches a ("integer") = true
      · simp only [h2, if_true] at h
        exact map_ok_scalar _ agtype_value.aint _ (fun _ => rfl) h
      · simp only [h2, if_false, Bool.false_eq_true] at h
        by_cases h3 : annotation_matches a ("float") = true
        · simp only [h3, if_true] at h
          exact map_ok_scalar _ agtype_value.afloat _ (fun _ => rfl) h
        · simp only [h3, if_false, Bool.false_eq_true] at h
          exact Except.noConfusion h

theorem datum_scalar_value_is_scalar (d : scalar_datum) (key_scalar : Bool)
    (w : agtype_value) (h : datum_to_agtype_scalar d key_scalar = .ok w) :
    IS_A_AGTYPE_SCALAR w = true := by
  cases d with
  | dnull =>
    injection h with h2
    rw [← h2]
    rfl
  | dbool b =>
    simp only [datum_to_agtype_scalar] at h
    split at h <;> (injection h with h2; rw [← h2]; rfl)
  | dinteger i =>
    simp only [datum_to_agtype_scalar] at h
    split at h <;> (injection h with h2; rw [← h2]; rfl)
  | dfloat outputstr f =>
    simp only [datum_to_agtype_scalar] at h
    split at h <;> (injection h with h2; rw [← h2]; rfl)
  | dnumeric outputstr q =>
    simp only [datum_to_agtype_scalar] at h
    split at h
    · injection h with h2
      rw [← h2]
      rfl
    · split at h <;> (injection h with h2; rw [← h2]; rfl)
  | ddatetime s =>
    injection h with h2
    rw [← h2]
    rfl
  | dother outputstr =>
    exact map_ok_scalar _ (fun _ => agtype_value.astring outputstr) _
      (fun _ => rfl) h

/-- C8: a top-level scalar is wrapped in a one-element raw-scalar Array
before encoding, on both construction paths — the parsed-scalar hook
`agtype_in_scalar` with an empty parse state, and `datum_to_agtype`
converting a scalar datum with an empty parse state — and in both cases
the built value is a scalar while the wrapper is a container (so every
top-level result is an Object or an Array). -/
theorem C8_top_level_scalar_wrapping (p1 : String → Except AgError Int)
    (p2 p3 : String → Except AgError ℚ) (token : String)
    (tt : agtype_token_type) (ann : Option String) (v : agtype_value)
    (d : scalar_datum) (w : agtype_value)
    (h : agtype_in_scalar_value p1 p2 p3 token tt ann = .ok v)
    (hd : datum_to_agtype_scalar d false = .ok w) :
    agtype_in_scalar p1 p2 p3 [] token tt ann =
      .ok ([], some (.aarray true [v]))
    ∧ IS_A_AGTYPE_SCALAR v = true
    ∧ IS_A_AGTYPE_SCALAR (.aarray true [v]) = false
    ∧ datum_to_agtype d false [] = .ok ([], some (.aarray true [w]))
    ∧ IS_A_AGTYPE_SCALAR w = true
    ∧ IS_A_AGTYPE_SCALAR (.aarray true [w]) = false := by
  refine ⟨?_, scalar_value_is_scalar p1 p2 p3 token tt ann v h, rfl, ?_,
    datum_scalar_value_is_scalar d false w hd, rfl⟩
  · unfold agtype_in_scalar
    rw [h]
    rfl
  · unfold datum_to_agtype
    rw [hd]
    rfl

theorem C8_top_level_scalar_wrapping_witness :
    agtype_in_scalar (fun _ => .ok 0) (fun _ => .ok 0) (fun _ => .ok 0) []
      ("null") .token_null none = .ok ([], some (.aarray true [.anull]))
    ∧ datum_to_agtype (.dbool true) false [] =
      .ok ([], some (.aarray true [.abool true])) := by
  have h := C8_top_level_scalar_wrapping (fun _ => .ok 0) (fun _ => .ok 0)
    (fun _ => .ok 0) ("null") .token_null none .anull (.dbool true)
    (.abool true) rfl rfl
  exact ⟨h.1, h.2.2.2.1⟩

/-- C4 (counterexample): Integer(2) and Float(2.0) denote the same numeric
value under exact arbitrary-precision comparison, yet
`2 IN [2.0]` evaluates to false, because the IN loop only compares scalars
whose `AGTV_*` types coincide — refuting the claim that IN is insensitive
to numeric subtype. -/
theorem C4_counterexample :
    agtype_in_operator (some (.aarray false [.afloat 2]))
      (some (.aarray true [.aint 2])) = .ok (some (.abool false))
    ∧ numValue (.aint 2) = numValue (.afloat 2) := by
  constructor
  · rfl
  · norm_num [numValue]

/-- C4 (amended): the IN operator compares an item with an element only
when both are containers or both are scalars of the same `AGTV_*` type;
when some element of the list is a scalar of the same agtype type as the
item and compares equal, IN returns true — but numerically equal values of
differing numeric subtypes are never compared, so they do not match. -/
theorem C4_same_type_membership (elems : List agtype_value)
    (x e : agtype_value) (hscal : IS_A_AGTYPE_SCALAR x = true)
    (hnn : x ≠ .anull) (he : e ∈ elems) (ht : agtv_tag x = agtv_tag e)
    (hc : compare_agtype_scalar_values x e = 0) :
    agtype_in_operator (some (.aarray false elems))
      (some (.aarray true [x])) = .ok (some (.abool true)) := by
  have hesc : IS_A_AGTYPE_SCALAR e = true := by
    cases x <;> cases e <;> simp_all [IS_A_AGTYPE_SCALAR, agtv_tag]
  have h1 : (!(IS_A_AGTYPE_SCALAR x) && !(IS_A_AGTYPE_SCALAR e)) = false := by
    rw [hscal]
    simp
  have h2 : (IS_A_AGTYPE_SCALAR x && IS_A_AGTYPE_SCALAR e &&
      (agtv_tag x == agtv_tag e)) = true := by
    rw [hscal, hesc, ht]
    simp
  have hmatch : in_matches x e = true := by
    simp only [in_matches, h1, h2]
    simp [hc]
  have hany : elems.any (fun q => in_matches x q) = true :=
    List.any_eq_true.mpr ⟨e, he, hmatch⟩
  cases x with
  | anull => exact absurd rfl hnn
  | abool b => simp [agtype_in_operator, hany]
  | aint i => simp [agtype_in_operator, hany]
  | afloat q => simp [agtype_in_operator, hany]
  | anumeric q => simp [agtype_in_operator, hany]
  | astring s => simp [agtype_in_operator, hany]
  | aarray r es => simp [IS_A_AGTYPE_SCALAR] at hscal
  | aobject ps => simp [IS_A_AGTYPE_SCALAR] at hscal
  | avertex ps => simp [agtype_in_operator, hany]
  | aedge ps => simp [agtype_in_operator, hany]

theorem C4_same_type_membership_witness :
    agtype_in_operator (some (.aarray false [.aint 2]))
      (some (.aarray true [.aint 2])) = .ok (some (.abool true)) :=
  C4_same_type_membership [.aint 2] (.aint 2) (.aint 2) rfl
    (fun h => agtype_value.noConfusion h) (by simp) rfl (by decide)

/-- C9 (counterexample): an agtype null key on a map access and an agtype
null index on an array access both yield SQL null rather than raising an
error, refuting the claim that every non-String key (resp. non-Integer
index) is reported as a type-mismatch error. -/
theorem C9_counterexample :
    execute_map_access_operator [(("a"), .aint 1)] .anull = .ok none
    ∧ execute_array_access_operator [.aint 1] .anull = .ok none :=
  ⟨rfl, rfl⟩

/-- C9 (amended): except for the agtype null scalar (which yields SQL
null), every array access whose index scalar is not an Integer and every
map access whose key scalar is not a String raises an error instead of
returning a value. -/
theorem C9_type_mismatch_errors (pairs : List (String × agtype_value))
    (l : List agtype_value) (k idx : agtype_value)
    (hk1 : k ≠ .anull) (hk2 : ∀ s, k ≠ .astring s)
    (hi1 : idx ≠ .anull) (hi2 : ∀ n, idx ≠ .aint n) :
    is_error (execute_map_access_operator pairs k) = true
    ∧ execute_array_access_operator l idx =
      .error (.invalidParameter ("array index must resolve to an integer value")) := by
  constructor
  · cases k <;>
      first
      | exact absurd rfl hk1
      | exact absurd rfl (hk2 _)
      | rfl
  · cases idx <;>
      first
      | exact absurd rfl hi1
      | exact absurd rfl (hi2 _)
      | rfl

theorem C9_type_mismatch_errors_witness :
    is_error (execute_map_access_operator [] (.abool true)) = true
    ∧ execute_array_access_operator [] (.astring ("x")) =
      .error (.invalidParameter ("array index must resolve to an integer value")) :=
  C9_type_mismatch_errors [] [] (.abool true) (.astring ("x"))
    (fun h => agtype_value.noConfusion h)
    (fun _ h => agtype_value.noConfusion h)
    (fun h => agtype_value.noConfusion h)
    (fun _ h => agtype_value.noConfusion h)

theorem ok_bind {α β : Type} (a : α) (f : α → Except AgError β) :
    (Except.ok a >>= f) = f a := rfl

theorem error_bind {α β : Type} (e : AgError) (f : α → Except AgError β) :
    ((Except.error e : Except AgError α) >>= f) = Except.error e := rfl

/-- C10: the vertex and edge builders turn a SQL NULL properties argument
into an empty-object properties field; a non-NULL properties argument
whose root is not an Object is an error; and each of the id,
[start_id, end_id], and label arguments must be non-NULL or the builder
fails. -/
theorem C10_vertex_edge_builders (gid sid eid : Int) (label : String)
    (hlab : label.utf8ByteSize ≤ AGTENTRY_OFFLENMASK)
    (p : agtype_value) (hp : AGT_ROOT_IS_OBJECT p = false) :
    (_agtype_build_vertex (some gid) (some label) none =
      .ok (.avertex [(("id"), .aint gid), (("label"), .astring label),
        (("properties"), .aobject [])]))
    ∧ (_agtype_build_vertex (some gid) (some label) (some p) =
      .error (.invalidParameter
        ("agtype_build_vertex() properties argument must be an object")))
    ∧ (∀ lb pr, _agtype_build_vertex none lb pr =
      .error (.invalidParameter
        ("agtype_build_vertex() graphid cannot be NULL")))
    ∧ (∀ pr, _agtype_build_vertex (some gid) none pr =
      .error (.invalidParameter
        ("agtype_build_vertex() label cannot be NULL")))
    ∧ (_agtype_build_edge (some gid) (some sid) (some eid) (some label) none =
      .ok (.aedge [(("id"), .aint gid), (("start_id"), .aint sid),
        (("end_id"), .aint eid), (("label"), .astring label),
        (("properties"), .aobject [])]))
    ∧ (_agtype_build_edge (some gid) (some sid) (some eid) (some label) (some p) =
      .error (.invalidParameter
        ("agtype_build_vertex() properties argument must be an object")))
    ∧ (∀ b c lb pr, _agtype_build_edge none b c lb pr =
      .error (.invalidParameter
        ("agtype_build_vertex() graphid cannot be NULL")))
    ∧ (∀ c lb pr, _agtype_build_edge (some gid) none c lb pr =
      .error (.invalidParameter
        ("agtype_build_vertex() startid cannot be NULL")))
    ∧ (∀ lb pr, _agtype_build_edge (some gid) (some sid) none lb pr =
      .error (.invalidParameter
        ("agtype_build_vertex() endoid cannot be NULL")))
    ∧ (∀ pr, _agtype_build_edge (some gid) (some sid) (some eid) none pr =
      .error (.invalidParameter
        ("agtype_build_vertex() label cannot be NULL"))) := by
  have hlabv : string_to_agtype_value label = Except.ok (.astring label) := by
    unfold string_to_agtype_value check_string_length
    rw [if_neg (by omega)]
    rfl
  refine ⟨?_, ?_, ?_, ?_, ?_, ?_, ?_, ?_, ?_, ?_⟩
  · simp only [_agtype_build_vertex, hlabv, push_agtype_value, append_to_parent,
      ok_bind, error_bind, List.cons_append, List.nil_append]
    rfl
  · simp only [_agtype_build_vertex, hlabv, hp, push_agtype_value, append_to_parent,
      ok_bind, error_bind, Bool.false_eq_true, if_false]
    rfl
  · intro lb pr
    rfl
  · intro pr
    rfl
  · simp only [_agtype_build_edge, hlabv, push_agtype_value, append_to_parent,
      ok_bind, error_bind, List.cons_append, List.nil_append]
    rfl
  · simp only [_agtype_build_edge, hlabv, hp, push_agtype_value, append_to_parent,
      ok_bind, error_bind, Bool.false_eq_true, if_false]
    rfl
  · intro b c lb pr
    rfl
  · intro c lb pr
    rfl
  · intro lb pr
    rfl
  · intro pr
    rfl

theorem C10_vertex_edge_builders_witness :
    _agtype_build_vertex (some 1) (some ("v")) none =
      .ok (.avertex [(("id"), .aint 1), (("label"), .astring ("v")),
        (("properties"), .aobject [])])
    ∧ _agtype_build_vertex none none none =
      .error (.invalidParameter
        ("agtype_build_vertex() graphid cannot be NULL")) := by
  have h := C10_vertex_edge_builders 1 2 3 ("v") (by decide) (.aint 0) rfl
  exact ⟨h.1, h.2.2.1 none none⟩
